import Mathlib

/-!
Incentive calculator (`src/index.js`).

A shallow embedding of the calculation in `src/index.js` and the properties
of it that the specification states.

Number model: a JavaScript number is modelled as a rational (`ℚ`) with exact
arithmetic, the reading the specification itself takes ("well-defined for all
real-number domains"). Rounding of IEEE doubles, signed zero, `NaN` and the
infinities are outside the model. The decimal literals of the source (`0.60`,
`0.03`) are the rationals they denote, where the source holds the nearest
doubles, and the quotients, products, sums and the halving of steps 4, 7, 8
and of `updateUI` are exact, where the source rounds each of them.

Scope: the theorems below are about the control flow, comparisons of the
inputs, the tier scan, the table lookups, and values at inputs whose
intermediate results are exact in binary64. Properties that hinge on rounding
are not stated over this model: the quotient `erNewCustomers / erActual`
against `0.60`, the product `erActual * 0.03`, the order of operations in
`(actual / target) * 100`, the exactness of the sum and of the halving, and
the sign of a percent that underflows.

Page model: `calculateIncentive` reads four inputs from the form and writes
its results into the DOM. The values read by step 1 (`parseFloat(..) || 0` and
the checkbox) are the arguments of `calculateIncentive`; the DOM it writes is
the record `Page`, passed in and returned. Each text element of the page holds
the number that `updateUI` renders into it; the rendering to a string
(`toFixed(2)`, `Intl.NumberFormat`) is presentation and is not modelled.
-/

namespace Calc

/-! ## Configuration constants (index.js, lines 1-29) -/

/-- The `NRV_TARGET` constant. -/
def NRV_TARGET : ℚ := 3000000

/-- The `ER_TARGET` constant. -/
def ER_TARGET : ℚ := 450000

/-- The `achievementTiers` array. -/
def achievementTiers : List ℚ := [50, 75, 100, 110, 120, 150]

/-- The `nrvFixedIncentives` object, as its list of key/value entries. -/
def nrvFixedIncentives : List (ℚ × ℚ) :=
  [(50, 7500), (75, 16875), (100, 30000), (110, 33000), (120, 36000), (150, 45000)]

/-- The `erFixedIncentives` object, as its list of key/value entries. -/
def erFixedIncentives : List (ℚ × ℚ) :=
  [(50, 4500), (75, 16875), (100, 45000), (110, 59400), (120, 64800), (150, 81000)]

/-- The `NEW_CUSTOMER_BOOSTER_THRESHOLD` constant, `0.60`, as the rational 3/5
that the literal denotes (the source holds the double nearest to it). -/
def NEW_CUSTOMER_BOOSTER_THRESHOLD : ℚ := 60 / 100

/-- The `NEW_CUSTOMER_BOOSTER_RATE` constant, `0.03`, as the rational 3/100
that the literal denotes (the source holds the double nearest to it). -/
def NEW_CUSTOMER_BOOSTER_RATE : ℚ := 3 / 100

/-! ## Object lookup -/

/-- Property access `table[key]`: the value stored under `key`, `none` for
`undefined` (no such key). -/
def getProp (table : List (ℚ × ℚ)) (key : ℚ) : Option ℚ :=
  match table with
  | [] => none
  | (k, v) :: rest => if k = key then some v else getProp rest key

/-- The expression `value || 0`: `undefined` and the falsy number `0` both
give `0`, any other number gives itself. -/
def orZero (value : Option ℚ) : ℚ :=
  match value with
  | none => 0
  | some v => if v = 0 then 0 else v

/-! ## getAchievementTier (index.js, lines 71-81) -/

/-- The `for (const tier of achievementTiers)` loop of `getAchievementTier`,
run over the tiers still to visit: `applicableTier` is the loop variable, the
`else` branch is the `break`. -/
def scanTiers (tiers : List ℚ) (percent applicableTier : ℚ) : ℚ :=
  match tiers with
  | [] => applicableTier
  | tier :: rest =>
    if percent ≥ tier then scanTiers rest percent tier else applicableTier

/-- The function `getAchievementTier(percent)`. -/
def getAchievementTier (percent : ℚ) : ℚ :=
  scanTiers achievementTiers percent 0

/-! ## The page and updateUI (index.js, lines 31-48 and 165-177) -/

/-- The part of the DOM that `calculateIncentive` writes: the `hidden` class of
the three panels and the number rendered into each result element. -/
structure Page where
  /-- Whether `resultsDiv` carries the class `hidden`. -/
  resultsHidden : Bool
  /-- Whether `resultsContentDiv` carries the class `hidden`. -/
  resultsContentHidden : Bool
  /-- Whether `sihWarningDiv` carries the class `hidden`. -/
  sihWarningHidden : Bool
  /-- The number shown in `nrvPercentEl`. -/
  nrvPercent : ℚ
  /-- The number shown in `erPercentEl`. -/
  erPercent : ℚ
  /-- The number shown in `finalAchievementTierEl`. -/
  finalTier : ℚ
  /-- The number shown in `nrvIncentiveEl`. -/
  nrvIncentive : ℚ
  /-- The number shown in `erIncentiveEl`. -/
  erIncentive : ℚ
  /-- The number shown in `boosterIncentiveEl`. -/
  boosterIncentive : ℚ
  /-- The number shown in `totalIncentiveEl`. -/
  totalIncentive : ℚ
  /-- The number shown in `payout1El`. -/
  payout1 : ℚ
  /-- The number shown in `payout2El`. -/
  payout2 : ℚ
  deriving DecidableEq

/-- The function `updateUI(nrvPercent, erPercent, finalTier, nrvInc, erInc,
boosterInc, totalInc)`: it writes the nine result elements and leaves the
panels as they are. The halving `totalInc / 2` is exact here; in the source it
is rounded, and underflows for the smallest subnormal total. -/
def updateUI (nrvPercent erPercent finalTier nrvInc erInc boosterInc totalInc : ℚ)
    (page : Page) : Page :=
  { page with
    nrvPercent := nrvPercent
    erPercent := erPercent
    finalTier := finalTier
    nrvIncentive := nrvInc
    erIncentive := erInc
    boosterIncentive := boosterInc
    totalIncentive := totalInc
    payout1 := totalInc / 2
    payout2 := totalInc / 2 }

/-! ## calculateIncentive (index.js, lines 86-160) -/

/-- What one call of `calculateIncentive` leaves behind: the message of the
`alert` it raised, if it raised one, and the page. -/
structure Run where
  /-- The message passed to `alert`, `none` when no alert was raised. -/
  alert : Option String
  /-- The page after the call. -/
  page : Page
  deriving DecidableEq

/-- The message of the validation alert. -/
def invalidInputMessage : String :=
  "Error: ER from New Customers cannot exceed ER Actual."

/-- The function `calculateIncentive`, from step 2 on; `nrvActual`, `erActual`,
`erNewCustomers` and `isSihMet` are the values step 1 reads from the form and
`page` is the page before the call. The arithmetic of steps 4, 7 and 8 is
exact here; the source rounds each operation to binary64. -/
def calculateIncentive (nrvActual erActual erNewCustomers : ℚ) (isSihMet : Bool)
    (page : Page) : Run :=
  let page := { page with resultsHidden := false }
  -- 2. Validate: ER New Customers should not exceed ER Actual
  if erNewCustomers > erActual then
    let page := updateUI 0 0 0 0 0 0 0 page
    let page := { page with resultsContentHidden := true }
    let page := { page with sihWarningHidden := true }
    { alert := some invalidInputMessage, page := page }
  -- 3. Check S.I.H. condition
  else if !isSihMet then
    let page := { page with sihWarningHidden := false }
    let page := { page with resultsContentHidden := true }
    let page := updateUI 0 0 0 0 0 0 0 page
    { alert := none, page := page }
  else
    let page := { page with sihWarningHidden := true }
    let page := { page with resultsContentHidden := false }
    -- 4. Calculate achievement percentages
    let nrvAchievedPercent := (nrvActual / NRV_TARGET) * 100
    let erAchievedPercent := (erActual / ER_TARGET) * 100
    -- 5. Determine the final achievement tier (the lower of the two)
    let finalAchievementPercent := min nrvAchievedPercent erAchievedPercent
    let finalTier := getAchievementTier finalAchievementPercent
    let nrvTier := getAchievementTier nrvAchievedPercent
    let erTier := getAchievementTier erAchievedPercent
    -- 6. Get fixed incentive amounts
    let nrvIncentive := if nrvTier > 0 then orZero (getProp nrvFixedIncentives nrvTier) else 0
    let erIncentive := if erTier > 0 then orZero (getProp erFixedIncentives erTier) else 0
    -- 7. Calculate New Customer Booster
    let boosterIncentive :=
      if erActual > 0 then
        let newCustomerRatio := erNewCustomers / erActual
        if newCustomerRatio > NEW_CUSTOMER_BOOSTER_THRESHOLD then
          erActual * NEW_CUSTOMER_BOOSTER_RATE
        else 0
      else 0
    -- 8. Calculate total incentive
    let totalIncentive := nrvIncentive + erIncentive + boosterIncentive
    -- 9. Update the UI
    { alert := none
      page := updateUI nrvAchievedPercent erAchievedPercent finalTier nrvIncentive erIncentive
        boosterIncentive totalIncentive page }

/-! ## Outcomes -/

/-- The `InvalidInputError` outcome: the call raised the validation alert. -/
def isInvalidInputError (r : Run) : Prop :=
  r.alert = some invalidInputMessage

instance (r : Run) : Decidable (isInvalidInputError r) := by
  unfold isInvalidInputError; infer_instance

/-- The "condition not met" warning state: no alert, the warning panel is
shown and the result table is hidden. -/
def isConditionWarning (r : Run) : Prop :=
  r.alert = none ∧ r.page.sihWarningHidden = false ∧ r.page.resultsContentHidden = true

instance (r : Run) : Decidable (isConditionWarning r) := by
  unfold isConditionWarning; infer_instance

/-- A successful calculation: no alert, the result table is shown and the
warning panel is hidden. -/
def isSuccess (r : Run) : Prop :=
  r.alert = none ∧ r.page.resultsContentHidden = false ∧ r.page.sihWarningHidden = true

instance (r : Run) : Decidable (isSuccess r) := by
  unfold isSuccess; infer_instance

/-- A page with every panel hidden and every result element at zero. -/
def blankPage : Page :=
  { resultsHidden := true, resultsContentHidden := true, sihWarningHidden := true
    nrvPercent := 0, erPercent := 0, finalTier := 0
    nrvIncentive := 0, erIncentive := 0, boosterIncentive := 0
    totalIncentive := 0, payout1 := 0, payout2 := 0 }

/-! ## Specification-side definitions -/

/-- The final tier as the specification words it: the minimum of the two
individually resolved tiers, compared as tier values. -/
def specFinalTier (revenuePercent earningsPercent : ℚ) : ℚ :=
  min (getAchievementTier revenuePercent) (getAchievementTier earningsPercent)

/-- The revenue tier table as the specification lists it; a tier that is not
in the table, tier 0 among them, pays 0. -/
def specRevenueTierTable (tier : ℚ) : ℚ :=
  if tier = 50 then 7500
  else if tier = 75 then 16875
  else if tier = 100 then 30000
  else if tier = 110 then 33000
  else if tier = 120 then 36000
  else if tier = 150 then 45000
  else 0

/-- The earnings tier table as the specification lists it; a tier that is not
in the table, tier 0 among them, pays 0. -/
def specEarningsTierTable (tier : ℚ) : ℚ :=
  if tier = 50 then 4500
  else if tier = 75 then 16875
  else if tier = 100 then 45000
  else if tier = 110 then 59400
  else if tier = 120 then 64800
  else if tier = 150 then 81000
  else 0

/-! ## Shape of the tier scan -/

/-- The loop of `getAchievementTier`, unrolled over the six thresholds. -/
theorem getAchievementTier_unrolled (p : ℚ) :
    getAchievementTier p =
      if p ≥ 50 then if p ≥ 75 then if p ≥ 100 then if p ≥ 110 then
        if p ≥ 120 then if p ≥ 150 then 150 else 120 else 110 else 100 else 75 else 50
      else 0 := rfl

/-- Monotonicity of the tier scan. -/
theorem getAchievementTier_mono {p q : ℚ} (h : p ≤ q) :
    getAchievementTier p ≤ getAchievementTier q := by
  rw [getAchievementTier_unrolled, getAchievementTier_unrolled]
  split_ifs <;> linarith

/-- The tier of the smaller percent is the smaller tier. -/
theorem getAchievementTier_min (p q : ℚ) :
    getAchievementTier (min p q) = min (getAchievementTier p) (getAchievementTier q) := by
  rcases le_total p q with h | h
  · rw [min_eq_left h, min_eq_left (getAchievementTier_mono h)]
  · rw [min_eq_right h, min_eq_right (getAchievementTier_mono h)]

/-- Below the first threshold the scan returns 0. -/
theorem getAchievementTier_of_lt_first {p : ℚ} (h : p < 50) : getAchievementTier p = 0 := by
  rw [getAchievementTier_unrolled, if_neg (not_le.mpr h)]

/-! ## The three branches of calculateIncentive -/

/-- The validation branch: the alert, every figure zero, both inner panels hidden. -/
theorem calculateIncentive_invalid (nrvActual : ℚ) {erActual erNewCustomers : ℚ}
    (isSihMet : Bool) (page : Page) (h : erNewCustomers > erActual) :
    calculateIncentive nrvActual erActual erNewCustomers isSihMet page =
      { alert := some invalidInputMessage
        page :=
          { resultsHidden := false, resultsContentHidden := true, sihWarningHidden := true
            nrvPercent := 0, erPercent := 0, finalTier := 0
            nrvIncentive := 0, erIncentive := 0, boosterIncentive := 0
            totalIncentive := 0, payout1 := 0, payout2 := 0 } } := by
  simp [calculateIncentive, updateUI, h]

/-- The gating branch: no alert, the warning shown, every figure zero. -/
theorem calculateIncentive_notMet (nrvActual : ℚ) {erActual erNewCustomers : ℚ}
    (page : Page) (h : erNewCustomers ≤ erActual) :
    calculateIncentive nrvActual erActual erNewCustomers false page =
      { alert := none
        page :=
          { resultsHidden := false, resultsContentHidden := true, sihWarningHidden := false
            nrvPercent := 0, erPercent := 0, finalTier := 0
            nrvIncentive := 0, erIncentive := 0, boosterIncentive := 0
            totalIncentive := 0, payout1 := 0, payout2 := 0 } } := by
  simp [calculateIncentive, updateUI, not_lt.mpr h]

/-- The calculation branch, steps 4 to 9. -/
theorem calculateIncentive_met (nrvActual : ℚ) {erActual erNewCustomers : ℚ}
    (page : Page) (h : erNewCustomers ≤ erActual) :
    calculateIncentive nrvActual erActual erNewCustomers true page =
      { alert := none
        page :=
          updateUI (nrvActual / NRV_TARGET * 100) (erActual / ER_TARGET * 100)
            (getAchievementTier (min (nrvActual / NRV_TARGET * 100) (erActual / ER_TARGET * 100)))
            (if getAchievementTier (nrvActual / NRV_TARGET * 100) > 0 then
              orZero (getProp nrvFixedIncentives (getAchievementTier (nrvActual / NRV_TARGET * 100)))
             else 0)
            (if getAchievementTier (erActual / ER_TARGET * 100) > 0 then
              orZero (getProp erFixedIncentives (getAchievementTier (erActual / ER_TARGET * 100)))
             else 0)
            (if erActual > 0 then
              if erNewCustomers / erActual > NEW_CUSTOMER_BOOSTER_THRESHOLD then
                erActual * NEW_CUSTOMER_BOOSTER_RATE
              else 0
             else 0)
            ((if getAchievementTier (nrvActual / NRV_TARGET * 100) > 0 then
              orZero (getProp nrvFixedIncentives (getAchievementTier (nrvActual / NRV_TARGET * 100)))
             else 0) +
             (if getAchievementTier (erActual / ER_TARGET * 100) > 0 then
              orZero (getProp erFixedIncentives (getAchievementTier (erActual / ER_TARGET * 100)))
             else 0) +
             (if erActual > 0 then
              if erNewCustomers / erActual > NEW_CUSTOMER_BOOSTER_THRESHOLD then
                erActual * NEW_CUSTOMER_BOOSTER_RATE
              else 0
             else 0))
            { page with
              resultsHidden := false, sihWarningHidden := true, resultsContentHidden := false } } := by
  simp [calculateIncentive, not_lt.mpr h]

/-- The call is a successful calculation exactly when the validation passes
and the condition is met. -/
theorem isSuccess_iff (nrvActual erActual erNewCustomers : ℚ) (isSihMet : Bool) (page : Page) :
    isSuccess (calculateIncentive nrvActual erActual erNewCustomers isSihMet page) ↔
      erNewCustomers ≤ erActual ∧ isSihMet = true := by
  rcases lt_or_le erActual erNewCustomers with h | h
  · rw [calculateIncentive_invalid _ _ _ h]
    simp [isSuccess, h]
  · cases isSihMet
    · rw [calculateIncentive_notMet _ _ h]
      simp [isSuccess]
    · rw [calculateIncentive_met _ _ h]
      simp [isSuccess, updateUI, h]

/-- The fixed revenue incentive paid for each value the tier scan can return. -/
theorem nrvIncentive_of_tier (p : ℚ) :
    (if getAchievementTier p > 0 then orZero (getProp nrvFixedIncentives (getAchievementTier p))
      else 0) =
      if p ≥ 50 then if p ≥ 75 then if p ≥ 100 then if p ≥ 110 then
        if p ≥ 120 then if p ≥ 150 then 45000 else 36000 else 33000 else 30000 else 16875
        else 7500
      else 0 := by
  rw [getAchievementTier_unrolled]
  split_ifs <;> norm_num [orZero, getProp, nrvFixedIncentives] at *

/-- The fixed earnings incentive paid for each value the tier scan can return. -/
theorem erIncentive_of_tier (p : ℚ) :
    (if getAchievementTier p > 0 then orZero (getProp erFixedIncentives (getAchievementTier p))
      else 0) =
      if p ≥ 50 then if p ≥ 75 then if p ≥ 100 then if p ≥ 110 then
        if p ≥ 120 then if p ≥ 150 then 81000 else 64800 else 59400 else 45000 else 16875
        else 4500
      else 0 := by
  rw [getAchievementTier_unrolled]
  split_ifs <;> norm_num [orZero, getProp, erFixedIncentives] at *

/-- The revenue lookup pays between 0 and 45000. -/
theorem nrvIncentive_bounds (p : ℚ) :
    0 ≤ (if getAchievementTier p > 0 then
          orZero (getProp nrvFixedIncentives (getAchievementTier p)) else 0) ∧
    (if getAchievementTier p > 0 then
          orZero (getProp nrvFixedIncentives (getAchievementTier p)) else 0) ≤ 45000 := by
  rw [nrvIncentive_of_tier]
  split_ifs <;> norm_num

/-- The earnings lookup pays between 0 and 81000. -/
theorem erIncentive_bounds (p : ℚ) :
    0 ≤ (if getAchievementTier p > 0 then
          orZero (getProp erFixedIncentives (getAchievementTier p)) else 0) ∧
    (if getAchievementTier p > 0 then
          orZero (getProp erFixedIncentives (getAchievementTier p)) else 0) ≤ 81000 := by
  rw [erIncentive_of_tier]
  split_ifs <;> norm_num

/-- The revenue lookup never falls as the percent rises. -/
theorem nrvIncentive_mono {p q : ℚ} (h : p ≤ q) :
    (if getAchievementTier p > 0 then
          orZero (getProp nrvFixedIncentives (getAchievementTier p)) else 0) ≤
    (if getAchievementTier q > 0 then
          orZero (getProp nrvFixedIncentives (getAchievementTier q)) else 0) := by
  rw [nrvIncentive_of_tier, nrvIncentive_of_tier]
  split_ifs <;> linarith

/-- The earnings lookup never falls as the percent rises. -/
theorem erIncentive_mono {p q : ℚ} (h : p ≤ q) :
    (if getAchievementTier p > 0 then
          orZero (getProp erFixedIncentives (getAchievementTier p)) else 0) ≤
    (if getAchievementTier q > 0 then
          orZero (getProp erFixedIncentives (getAchievementTier q)) else 0) := by
  rw [erIncentive_of_tier, erIncentive_of_tier]
  split_ifs <;> linarith

/-- The booster of step 7 is never negative. -/
theorem booster_nonneg (erActual erNewCustomers : ℚ) :
    0 ≤ (if erActual > 0 then
          if erNewCustomers / erActual > NEW_CUSTOMER_BOOSTER_THRESHOLD then
            erActual * NEW_CUSTOMER_BOOSTER_RATE
          else 0
         else 0) := by
  split_ifs with h1 h2
  · simp only [NEW_CUSTOMER_BOOSTER_RATE]
    linarith
  · exact le_refl _
  · exact le_refl _

/-! ## Validation and gating -/

/-- C1: for every input and every page, `calculateIncentive` ends in the
InvalidInputError outcome (the validation alert is raised) if and only if
`erNewCustomers > erActual`, whatever `isSihMet` is; no other alert exists;
and in that outcome every figure written by `updateUI` is 0 and neither the
result table nor the warning is shown. -/
theorem invalidInputError_iff (nrvActual erActual erNewCustomers : ℚ) (isSihMet : Bool)
    (page : Page) :
    (isInvalidInputError (calculateIncentive nrvActual erActual erNewCustomers isSihMet page) ↔
      erNewCustomers > erActual) ∧
    ((calculateIncentive nrvActual erActual erNewCustomers isSihMet page).alert ≠ none ↔
      erNewCustomers > erActual) ∧
    (erNewCustomers > erActual →
      (calculateIncentive nrvActual erActual erNewCustomers isSihMet page).page =
        { resultsHidden := false, resultsContentHidden := true, sihWarningHidden := true
          nrvPercent := 0, erPercent := 0, finalTier := 0
          nrvIncentive := 0, erIncentive := 0, boosterIncentive := 0
          totalIncentive := 0, payout1 := 0, payout2 := 0 }) := by
  rcases lt_or_le erActual erNewCustomers with h | h
  · rw [calculateIncentive_invalid _ _ _ h]
    simp [isInvalidInputError, h]
  · cases isSihMet
    · rw [calculateIncentive_notMet _ _ h]
      simp [isInvalidInputError, not_lt.mpr h]
    · rw [calculateIncentive_met _ _ h]
      simp [isInvalidInputError, not_lt.mpr h]

/-- C1 at Scenario C: `erNewCustomers = 500000` over `erActual = 450000` ends
in the InvalidInputError outcome for either value of the condition. -/
theorem invalidInputError_scenarioC :
    isInvalidInputError (calculateIncentive 3000000 450000 500000 true blankPage) ∧
    isInvalidInputError (calculateIncentive 3000000 450000 500000 false blankPage) ∧
    (calculateIncentive 3000000 450000 500000 true blankPage).page.totalIncentive = 0 :=
  ⟨(invalidInputError_iff 3000000 450000 500000 true blankPage).1.2 (by norm_num),
   (invalidInputError_iff 3000000 450000 500000 false blankPage).1.2 (by norm_num),
   by rw [(invalidInputError_iff 3000000 450000 500000 true blankPage).2.2 (by norm_num)]⟩

/-- C2: with the condition not met, whatever the three amounts and the page
before the call are, the revenue, earnings and booster incentives, the total
and both payout installments written to the page are 0. -/
theorem condition_false_zero_incentives (nrvActual erActual erNewCustomers : ℚ) (page : Page) :
    (calculateIncentive nrvActual erActual erNewCustomers false page).page.nrvIncentive = 0 ∧
    (calculateIncentive nrvActual erActual erNewCustomers false page).page.erIncentive = 0 ∧
    (calculateIncentive nrvActual erActual erNewCustomers false page).page.boosterIncentive = 0 ∧
    (calculateIncentive nrvActual erActual erNewCustomers false page).page.totalIncentive = 0 ∧
    (calculateIncentive nrvActual erActual erNewCustomers false page).page.payout1 = 0 ∧
    (calculateIncentive nrvActual erActual erNewCustomers false page).page.payout2 = 0 := by
  rcases lt_or_le erActual erNewCustomers with h | h
  · rw [calculateIncentive_invalid _ _ _ h]
    simp
  · rw [calculateIncentive_notMet _ _ h]
    simp

/-! ## Tier resolution -/

/-- C3: for every percent `p`, `getAchievementTier p` is 0 when `p < 50` and
otherwise is the largest threshold of `achievementTiers` that is at most `p`
(a threshold, at most `p`, and no threshold at most `p` exceeds it); and
`getAchievementTier` sends 49.99 to 0, 50 to 50, 149.99 to 120, 150 to 150. -/
theorem getAchievementTier_largest_threshold (p : ℚ) :
    (p < 50 → getAchievementTier p = 0) ∧
    (50 ≤ p →
      getAchievementTier p ∈ achievementTiers ∧ getAchievementTier p ≤ p ∧
      ∀ t ∈ achievementTiers, t ≤ p → t ≤ getAchievementTier p) ∧
    getAchievementTier 49.99 = 0 ∧ getAchievementTier 50 = 50 ∧
    getAchievementTier 149.99 = 120 ∧ getAchievementTier 150 = 150 := by
  refine ⟨?_, ?_, ?_, ?_, ?_, ?_⟩
  · intro h
    rw [getAchievementTier_unrolled, if_neg (not_le.mpr h)]
  · intro h
    rw [getAchievementTier_unrolled]
    simp only [achievementTiers, List.mem_cons, List.mem_singleton, List.not_mem_nil, or_false,
      forall_eq_or_imp, forall_eq]
    split_ifs <;> refine ⟨by norm_num, by linarith, ?_⟩ <;>
      refine ⟨?_, ?_, ?_, ?_, ?_, ?_⟩ <;> intro _ <;> linarith
  · norm_num [getAchievementTier_unrolled]
  · norm_num [getAchievementTier_unrolled]
  · norm_num [getAchievementTier_unrolled]
  · norm_num [getAchievementTier_unrolled]

/-- C4: in every successful calculation the final tier on the page, which the
code computes as `getAchievementTier (min nrvPercent erPercent)`, equals the
minimum of the two individually resolved tiers; the two readings agree for
all percents. -/
theorem finalTier_eq_min_of_tiers (nrvActual erActual erNewCustomers : ℚ) (page : Page)
    (hvalid : erNewCustomers ≤ erActual) :
    (calculateIncentive nrvActual erActual erNewCustomers true page).page.finalTier =
      specFinalTier
        (calculateIncentive nrvActual erActual erNewCustomers true page).page.nrvPercent
        (calculateIncentive nrvActual erActual erNewCustomers true page).page.erPercent ∧
    (calculateIncentive nrvActual erActual erNewCustomers true page).page.finalTier =
      getAchievementTier (min
        (calculateIncentive nrvActual erActual erNewCustomers true page).page.nrvPercent
        (calculateIncentive nrvActual erActual erNewCustomers true page).page.erPercent) ∧
    (∀ p q : ℚ, getAchievementTier (min p q) = specFinalTier p q) := by
  rw [calculateIncentive_met _ _ hvalid]
  refine ⟨?_, rfl, fun p q => getAchievementTier_min p q⟩
  exact getAchievementTier_min _ _

/-- C4 at a concrete input: revenue at 60 percent and earnings at 100 percent
report the final tier 50. -/
theorem finalTier_eq_min_of_tiers_witness :
    (0 : ℚ) ≤ 450000 ∧
    (calculateIncentive 1800000 450000 0 true blankPage).page.finalTier =
      specFinalTier
        (calculateIncentive 1800000 450000 0 true blankPage).page.nrvPercent
        (calculateIncentive 1800000 450000 0 true blankPage).page.erPercent :=
  ⟨by norm_num, (finalTier_eq_min_of_tiers 1800000 450000 0 blankPage (by norm_num)).1⟩

/-- C5: in every successful calculation the revenue incentive is the revenue
table's amount for the tier resolved from the revenue percent and the earnings
incentive is the earnings table's amount for the tier resolved from the
earnings percent; the resolved tier is 0 or one of the six table keys, and
tier 0 pays 0 in both tables. -/
theorem incentives_from_own_tier (nrvActual erActual erNewCustomers : ℚ) (page : Page)
    (hvalid : erNewCustomers ≤ erActual) :
    (calculateIncentive nrvActual erActual erNewCustomers true page).page.nrvIncentive =
      specRevenueTierTable (getAchievementTier
        (calculateIncentive nrvActual erActual erNewCustomers true page).page.nrvPercent) ∧
    (calculateIncentive nrvActual erActual erNewCustomers true page).page.erIncentive =
      specEarningsTierTable (getAchievementTier
        (calculateIncentive nrvActual erActual erNewCustomers true page).page.erPercent) ∧
    (getAchievementTier
        (calculateIncentive nrvActual erActual erNewCustomers true page).page.nrvPercent = 0 →
      (calculateIncentive nrvActual erActual erNewCustomers true page).page.nrvIncentive = 0) ∧
    (getAchievementTier
        (calculateIncentive nrvActual erActual erNewCustomers true page).page.erPercent = 0 →
      (calculateIncentive nrvActual erActual erNewCustomers true page).page.erIncentive = 0) ∧
    getAchievementTier
        (calculateIncentive nrvActual erActual erNewCustomers true page).page.nrvPercent ∈
      [0, 50, 75, 100, 110, 120, 150] ∧
    getAchievementTier
        (calculateIncentive nrvActual erActual erNewCustomers true page).page.erPercent ∈
      [0, 50, 75, 100, 110, 120, 150] := by
  rw [calculateIncentive_met _ _ hvalid]
  simp only [updateUI]
  refine ⟨?_, ?_, ?_, ?_, ?_, ?_⟩
  · rw [nrvIncentive_of_tier, getAchievementTier_unrolled]
    split_ifs <;> norm_num [specRevenueTierTable]
  · rw [erIncentive_of_tier, getAchievementTier_unrolled]
    split_ifs <;> norm_num [specEarningsTierTable]
  · intro h
    rw [h]; norm_num
  · intro h
    rw [h]; norm_num
  · rw [getAchievementTier_unrolled]
    split_ifs <;> norm_num
  · rw [getAchievementTier_unrolled]
    split_ifs <;> norm_num

/-- C5 at a concrete input: revenue at 110 percent resolves to tier 110 and
pays 33000, earnings at 75 percent resolve to tier 75 and pay 16875. -/
theorem incentives_from_own_tier_witness :
    (0 : ℚ) ≤ 337500 ∧
    (calculateIncentive 3300000 337500 0 true blankPage).page.nrvIncentive = 33000 ∧
    (calculateIncentive 3300000 337500 0 true blankPage).page.erIncentive = 16875 :=
  ⟨by norm_num,
   (incentives_from_own_tier 3300000 337500 0 blankPage (by norm_num)).1.trans
     (by norm_num [calculateIncentive, updateUI, NRV_TARGET, getAchievementTier_unrolled,
       specRevenueTierTable]),
   (incentives_from_own_tier 3300000 337500 0 blankPage (by norm_num)).2.1.trans
     (by norm_num [calculateIncentive, updateUI, ER_TARGET, getAchievementTier_unrolled,
       specEarningsTierTable])⟩

/-! ## The step function and the gating state -/

/-- C8: `getAchievementTier` is monotone non-decreasing, and it is a step
function: it is 0 below the first threshold, it equals the lower threshold
`a` everywhere on `[a, b)` for consecutive thresholds `a`, `b` of
`achievementTiers`, and it is 150 from the last threshold on. -/
theorem getAchievementTier_monotone_step :
    (∀ p q : ℚ, p ≤ q → getAchievementTier p ≤ getAchievementTier q) ∧
    (∀ p : ℚ, p < 50 → getAchievementTier p = 0) ∧
    (∀ a b : ℚ, (a, b) ∈ achievementTiers.zip achievementTiers.tail →
      ∀ p : ℚ, a ≤ p → p < b → getAchievementTier p = a) ∧
    (∀ p : ℚ, 150 ≤ p → getAchievementTier p = 150) := by
  refine ⟨fun p q h => getAchievementTier_mono h, ?_, ?_, ?_⟩
  · intro p h
    rw [getAchievementTier_unrolled, if_neg (not_le.mpr h)]
  · intro a b hab p h1 h2
    simp only [achievementTiers, List.tail_cons, List.zip_cons_cons, List.zip_nil_right,
      List.mem_cons, Prod.mk.injEq, List.not_mem_nil, or_false] at hab
    rw [getAchievementTier_unrolled]
    rcases hab with ⟨rfl, rfl⟩ | ⟨rfl, rfl⟩ | ⟨rfl, rfl⟩ | ⟨rfl, rfl⟩ | ⟨rfl, rfl⟩ <;>
      split_ifs <;> first | rfl | (exfalso; linarith)
  · intro p h
    rw [getAchievementTier_unrolled]
    split_ifs <;> first | rfl | (exfalso; linarith)

/-- C9, as the code has it: with the condition not met and the validation
passed (`erNewCustomers ≤ erActual`), whatever `nrvActual` and the page before
the call are, the call ends in the "condition not met" warning state (no alert,
warning shown, result table hidden) and every figure on the page is 0. -/
theorem condition_not_met_warning (nrvActual erActual erNewCustomers : ℚ) (page : Page)
    (hvalid : erNewCustomers ≤ erActual) :
    isConditionWarning (calculateIncentive nrvActual erActual erNewCustomers false page) ∧
    (calculateIncentive nrvActual erActual erNewCustomers false page).page.nrvPercent = 0 ∧
    (calculateIncentive nrvActual erActual erNewCustomers false page).page.erPercent = 0 ∧
    (calculateIncentive nrvActual erActual erNewCustomers false page).page.finalTier = 0 ∧
    (calculateIncentive nrvActual erActual erNewCustomers false page).page.nrvIncentive = 0 ∧
    (calculateIncentive nrvActual erActual erNewCustomers false page).page.erIncentive = 0 ∧
    (calculateIncentive nrvActual erActual erNewCustomers false page).page.boosterIncentive = 0 ∧
    (calculateIncentive nrvActual erActual erNewCustomers false page).page.totalIncentive = 0 ∧
    (calculateIncentive nrvActual erActual erNewCustomers false page).page.payout1 = 0 ∧
    (calculateIncentive nrvActual erActual erNewCustomers false page).page.payout2 = 0 := by
  rw [calculateIncentive_notMet _ _ hvalid]
  simp [isConditionWarning]

/-- C9 at a concrete input: targets met on both metrics, condition not met. -/
theorem condition_not_met_warning_witness :
    (0 : ℚ) ≤ 450000 ∧
    isConditionWarning (calculateIncentive 3000000 450000 0 false blankPage) ∧
    (calculateIncentive 3000000 450000 0 false blankPage).page.totalIncentive = 0 :=
  ⟨by norm_num,
   (condition_not_met_warning 3000000 450000 0 blankPage (by norm_num)).1,
   (condition_not_met_warning 3000000 450000 0 blankPage (by norm_num)).2.2.2.2.2.2.2.1⟩

/-- C9 as stated fails: with the condition not met and `erNewCustomers = 500000`
over `erActual = 450000`, the call raises the validation alert and hides the
warning panel, so it does not end in the "condition not met" warning state. -/
theorem condition_not_met_counterexample :
    ¬ isConditionWarning (calculateIncentive 3000000 450000 500000 false blankPage) ∧
    isInvalidInputError (calculateIncentive 3000000 450000 500000 false blankPage) ∧
    (calculateIncentive 3000000 450000 500000 false blankPage).page.sihWarningHidden = true := by
  rw [calculateIncentive_invalid 3000000 false blankPage (by norm_num)]
  simp [isConditionWarning, isInvalidInputError]

/-! ## Per-metric lookup and the scenarios -/

/-- C11: in successful calculations each incentive depends on its own metric
only: two successful calculations with the same `nrvActual` show the same
revenue incentive whatever the earnings inputs and the pages are, and two with
the same `erActual` show the same earnings incentive; the final tier plays no
part, and there are valid inputs whose final tier is 0 while the revenue
incentive is positive. -/
theorem incentive_depends_on_own_metric
    (nrvActual erActual erNewCustomers nrvActual2 erActual2 erNewCustomers2 : ℚ)
    (page page2 : Page)
    (hvalid : erNewCustomers ≤ erActual) (hvalid2 : erNewCustomers2 ≤ erActual2) :
    (nrvActual = nrvActual2 →
      (calculateIncentive nrvActual erActual erNewCustomers true page).page.nrvIncentive =
        (calculateIncentive nrvActual2 erActual2 erNewCustomers2 true page2).page.nrvIncentive) ∧
    (erActual = erActual2 →
      (calculateIncentive nrvActual erActual erNewCustomers true page).page.erIncentive =
        (calculateIncentive nrvActual2 erActual2 erNewCustomers2 true page2).page.erIncentive) ∧
    (∃ a e n : ℚ, n ≤ e ∧
      (calculateIncentive a e n true page).page.finalTier = 0 ∧
      (calculateIncentive a e n true page).page.nrvIncentive > 0) := by
  rw [calculateIncentive_met _ _ hvalid, calculateIncentive_met _ _ hvalid2]
  refine ⟨?_, ?_, 3000000, 0, 0, le_refl _, ?_, ?_⟩
  · intro h
    subst h
    rfl
  · intro h
    subst h
    rfl
  · rw [calculateIncentive_met _ _ (le_refl _)]
    simp only [updateUI]
    exact getAchievementTier_of_lt_first (by norm_num [NRV_TARGET, ER_TARGET])
  · rw [calculateIncentive_met _ _ (le_refl _)]
    simp only [updateUI]
    rw [nrvIncentive_of_tier]
    norm_num [NRV_TARGET]

/-- C11 at concrete inputs: revenue on target pays 30000 both with earnings on
target and with no earnings at all, and in the second case the final tier is 0. -/
theorem incentive_depends_on_own_metric_witness :
    (0 : ℚ) ≤ 450000 ∧ (0 : ℚ) ≤ 0 ∧
    (calculateIncentive 3000000 450000 0 true blankPage).page.nrvIncentive =
      (calculateIncentive 3000000 0 0 true blankPage).page.nrvIncentive ∧
    (calculateIncentive 3000000 0 0 true blankPage).page.nrvIncentive = 30000 ∧
    (calculateIncentive 3000000 0 0 true blankPage).page.finalTier = 0 :=
  ⟨by norm_num, le_refl _,
   (incentive_depends_on_own_metric 3000000 450000 0 3000000 0 0 blankPage blankPage
     (by norm_num) (le_refl _)).1 rfl,
   by norm_num [calculateIncentive, updateUI, NRV_TARGET, getAchievementTier_unrolled, orZero,
     getProp, nrvFixedIncentives],
   by norm_num [calculateIncentive, updateUI, NRV_TARGET, ER_TARGET,
     getAchievementTier_unrolled]⟩

/-- C12 (Scenario A): `nrvActual = 3000000`, `erActual = 450000`,
`erNewCustomers = 0`, condition met: both percents are 100, the revenue
incentive is 30000, the earnings incentive 45000, the booster 0, the total
75000 and each payout installment 37500, whatever the page before the call. -/
theorem scenarioA (page : Page) :
    (calculateIncentive 3000000 450000 0 true page).page.nrvPercent = 100 ∧
    (calculateIncentive 3000000 450000 0 true page).page.erPercent = 100 ∧
    (calculateIncentive 3000000 450000 0 true page).page.nrvIncentive = 30000 ∧
    (calculateIncentive 3000000 450000 0 true page).page.erIncentive = 45000 ∧
    (calculateIncentive 3000000 450000 0 true page).page.boosterIncentive = 0 ∧
    (calculateIncentive 3000000 450000 0 true page).page.totalIncentive = 75000 ∧
    (calculateIncentive 3000000 450000 0 true page).page.payout1 = 37500 ∧
    (calculateIncentive 3000000 450000 0 true page).page.payout2 = 37500 := by
  rw [calculateIncentive_met _ _ (by norm_num)]
  simp only [updateUI]
  rw [nrvIncentive_of_tier, erIncentive_of_tier]
  norm_num [NRV_TARGET, ER_TARGET, NEW_CUSTOMER_BOOSTER_THRESHOLD]

/-- C13 (Scenario B): `nrvActual = 1500000`, `erActual = 225000`,
`erNewCustomers = 200000`, condition met: both percents are 50, the revenue
incentive is 7500, the earnings incentive 4500, the booster
`225000 * 0.03 = 6750` and the total 18750, whatever the page before the call. -/
theorem scenarioB (page : Page) :
    (calculateIncentive 1500000 225000 200000 true page).page.nrvPercent = 50 ∧
    (calculateIncentive 1500000 225000 200000 true page).page.erPercent = 50 ∧
    (calculateIncentive 1500000 225000 200000 true page).page.nrvIncentive = 7500 ∧
    (calculateIncentive 1500000 225000 200000 true page).page.erIncentive = 4500 ∧
    (calculateIncentive 1500000 225000 200000 true page).page.boosterIncentive = 225000 * 0.03 ∧
    (calculateIncentive 1500000 225000 200000 true page).page.boosterIncentive = 6750 ∧
    (calculateIncentive 1500000 225000 200000 true page).page.totalIncentive = 18750 := by
  rw [calculateIncentive_met _ _ (by norm_num)]
  simp only [updateUI]
  rw [nrvIncentive_of_tier, erIncentive_of_tier]
  norm_num [NRV_TARGET, ER_TARGET, NEW_CUSTOMER_BOOSTER_THRESHOLD, NEW_CUSTOMER_BOOSTER_RATE]

/-! ## Safety of the lookups, bounds and monotonicity -/

/-- C15: for every percent `p`, `getAchievementTier p` is one of 0, 50, 75,
100, 110, 120, 150; when it is not 0 it is a key of both incentive tables with
a strictly positive amount, so the guarded lookup with its `|| 0` returns that
amount itself (the fallback is not taken) and a non-zero tier pays a strictly
positive fixed incentive; accordingly, in every successful calculation with a
non-zero revenue (earnings) tier the incentive on the page is the table entry
stored under that tier and is strictly positive. -/
theorem tier_is_table_key (p : ℚ) :
    getAchievementTier p ∈ [0, 50, 75, 100, 110, 120, 150] ∧
    (getAchievementTier p ≠ 0 →
      ∃ v : ℚ, getProp nrvFixedIncentives (getAchievementTier p) = some v ∧ 0 < v ∧
        orZero (getProp nrvFixedIncentives (getAchievementTier p)) = v ∧
        (if getAchievementTier p > 0 then
          orZero (getProp nrvFixedIncentives (getAchievementTier p)) else 0) = v) ∧
    (getAchievementTier p ≠ 0 →
      ∃ v : ℚ, getProp erFixedIncentives (getAchievementTier p) = some v ∧ 0 < v ∧
        orZero (getProp erFixedIncentives (getAchievementTier p)) = v ∧
        (if getAchievementTier p > 0 then
          orZero (getProp erFixedIncentives (getAchievementTier p)) else 0) = v) ∧
    (∀ (nrvActual erActual erNewCustomers : ℚ) (page : Page), erNewCustomers ≤ erActual →
      getAchievementTier
        (calculateIncentive nrvActual erActual erNewCustomers true page).page.nrvPercent ≠ 0 →
      getProp nrvFixedIncentives (getAchievementTier
        (calculateIncentive nrvActual erActual erNewCustomers true page).page.nrvPercent) =
        some (calculateIncentive nrvActual erActual erNewCustomers true page).page.nrvIncentive ∧
      0 < (calculateIncentive nrvActual erActual erNewCustomers true page).page.nrvIncentive) ∧
    (∀ (nrvActual erActual erNewCustomers : ℚ) (page : Page), erNewCustomers ≤ erActual →
      getAchievementTier
        (calculateIncentive nrvActual erActual erNewCustomers true page).page.erPercent ≠ 0 →
      getProp erFixedIncentives (getAchievementTier
        (calculateIncentive nrvActual erActual erNewCustomers true page).page.erPercent) =
        some (calculateIncentive nrvActual erActual erNewCustomers true page).page.erIncentive ∧
      0 < (calculateIncentive nrvActual erActual erNewCustomers true page).page.erIncentive) := by
  refine ⟨?_, ?_, ?_, ?_, ?_⟩
  · rw [getAchievementTier_unrolled]
    split_ifs <;> norm_num
  · rw [getAchievementTier_unrolled]
    split_ifs <;> norm_num [getProp, nrvFixedIncentives, orZero] at *
  · rw [getAchievementTier_unrolled]
    split_ifs <;> norm_num [getProp, erFixedIncentives, orZero] at *
  · intro nrvActual erActual erNewCustomers page hvalid
    rw [calculateIncentive_met _ _ hvalid]
    simp only [updateUI]
    generalize nrvActual / NRV_TARGET * 100 = q
    rw [getAchievementTier_unrolled]
    split_ifs <;> norm_num [getProp, nrvFixedIncentives, orZero] at *
  · intro nrvActual erActual erNewCustomers page hvalid
    rw [calculateIncentive_met _ _ hvalid]
    simp only [updateUI]
    generalize erActual / ER_TARGET * 100 = q
    rw [getAchievementTier_unrolled]
    split_ifs <;> norm_num [getProp, erFixedIncentives, orZero] at *

/-- C16: after every call, for all inputs (negative ones included), either
value of the condition and any page before the call, the revenue, earnings and
booster incentives, the total and both payout installments on the page are
non-negative, the revenue incentive is at most 45000 and the earnings
incentive at most 81000. -/
theorem figures_nonneg_and_bounded (nrvActual erActual erNewCustomers : ℚ) (isSihMet : Bool)
    (page : Page) :
    0 ≤ (calculateIncentive nrvActual erActual erNewCustomers isSihMet page).page.nrvIncentive ∧
    0 ≤ (calculateIncentive nrvActual erActual erNewCustomers isSihMet page).page.erIncentive ∧
    0 ≤ (calculateIncentive nrvActual erActual erNewCustomers isSihMet page).page.boosterIncentive ∧
    0 ≤ (calculateIncentive nrvActual erActual erNewCustomers isSihMet page).page.totalIncentive ∧
    0 ≤ (calculateIncentive nrvActual erActual erNewCustomers isSihMet page).page.payout1 ∧
    0 ≤ (calculateIncentive nrvActual erActual erNewCustomers isSihMet page).page.payout2 ∧
    (calculateIncentive nrvActual erActual erNewCustomers isSihMet page).page.nrvIncentive ≤ 45000 ∧
    (calculateIncentive nrvActual erActual erNewCustomers isSihMet page).page.erIncentive ≤ 81000 := by
  rcases lt_or_le erActual erNewCustomers with h | h
  · rw [calculateIncentive_invalid _ _ _ h]
    norm_num
  · cases isSihMet
    · rw [calculateIncentive_notMet _ _ h]
      norm_num
    · rw [calculateIncentive_met _ _ h]
      simp only [updateUI]
      have h1 := nrvIncentive_bounds (nrvActual / NRV_TARGET * 100)
      have h2 := erIncentive_bounds (erActual / ER_TARGET * 100)
      have h3 := booster_nonneg erActual erNewCustomers
      refine ⟨h1.1, h2.1, h3, by linarith [h1.1, h2.1], by linarith [h1.1, h2.1],
        by linarith [h1.1, h2.1], h1.2, h2.2⟩

/-- C17: the fixed incentives never fall as achievement rises: of two
successful calculations the one with the larger (or equal) `nrvActual` shows a
revenue incentive at least as large, and the one with the larger (or equal)
`erActual` shows an earnings incentive at least as large. -/
theorem fixed_incentives_monotone
    (nrvActual erActual erNewCustomers nrvActual2 erActual2 erNewCustomers2 : ℚ)
    (page page2 : Page)
    (hvalid : erNewCustomers ≤ erActual) (hvalid2 : erNewCustomers2 ≤ erActual2) :
    (nrvActual ≤ nrvActual2 →
      (calculateIncentive nrvActual erActual erNewCustomers true page).page.nrvIncentive ≤
        (calculateIncentive nrvActual2 erActual2 erNewCustomers2 true page2).page.nrvIncentive) ∧
    (erActual ≤ erActual2 →
      (calculateIncentive nrvActual erActual erNewCustomers true page).page.erIncentive ≤
        (calculateIncentive nrvActual2 erActual2 erNewCustomers2 true page2).page.erIncentive) := by
  rw [calculateIncentive_met _ _ hvalid, calculateIncentive_met _ _ hvalid2]
  simp only [updateUI]
  constructor
  · intro h
    apply nrvIncentive_mono
    simp only [NRV_TARGET]
    linarith
  · intro h
    apply erIncentive_mono
    simp only [ER_TARGET]
    linarith

/-- C17 at concrete inputs: revenue at 50 percent pays 7500 and revenue at 100
percent pays 30000; earnings at 50 percent pay 4500 and at 100 percent 45000. -/
theorem fixed_incentives_monotone_witness :
    (0 : ℚ) ≤ 225000 ∧ (0 : ℚ) ≤ 450000 ∧
    (calculateIncentive 1500000 225000 0 true blankPage).page.nrvIncentive ≤
      (calculateIncentive 3000000 450000 0 true blankPage).page.nrvIncentive ∧
    (calculateIncentive 1500000 225000 0 true blankPage).page.erIncentive ≤
      (calculateIncentive 3000000 450000 0 true blankPage).page.erIncentive :=
  ⟨by norm_num, by norm_num,
   (fixed_incentives_monotone 1500000 225000 0 3000000 450000 0 blankPage blankPage
     (by norm_num) (by norm_num)).1 (by norm_num),
   (fixed_incentives_monotone 1500000 225000 0 3000000 450000 0 blankPage blankPage
     (by norm_num) (by norm_num)).2 (by norm_num)⟩

/-- C18: the total is not monotone in `erActual`: with `nrvActual = 0`,
`erNewCustomers = 61000` and the condition met, both `erActual = 100000` and
`erActual = 102000` are valid and succeed, the first shows the total 3000 (the
booster of a ratio 0.61) and the second, larger one shows the total 0 (ratio
below 0.60, booster lost); so the total does not always rise with `erActual`. -/
theorem total_not_monotone_in_erActual :
    (61000 : ℚ) ≤ 100000 ∧ (61000 : ℚ) ≤ 102000 ∧ (100000 : ℚ) < 102000 ∧
    isSuccess (calculateIncentive 0 100000 61000 true blankPage) ∧
    isSuccess (calculateIncentive 0 102000 61000 true blankPage) ∧
    (calculateIncentive 0 100000 61000 true blankPage).page.boosterIncentive = 3000 ∧
    (calculateIncentive 0 100000 61000 true blankPage).page.totalIncentive = 3000 ∧
    (calculateIncentive 0 102000 61000 true blankPage).page.boosterIncentive = 0 ∧
    (calculateIncentive 0 102000 61000 true blankPage).page.totalIncentive = 0 ∧
    (calculateIncentive 0 102000 61000 true blankPage).page.totalIncentive <
      (calculateIncentive 0 100000 61000 true blankPage).page.totalIncentive ∧
    ¬ (∀ (nrvActual erActual erActual2 erNewCustomers : ℚ) (page : Page),
        erNewCustomers ≤ erActual → erActual ≤ erActual2 →
        (calculateIncentive nrvActual erActual erNewCustomers true page).page.totalIncentive ≤
          (calculateIncentive nrvActual erActual2 erNewCustomers true page).page.totalIncentive) := by
  have ha : (calculateIncentive 0 100000 61000 true blankPage).page.boosterIncentive = 3000 ∧
      (calculateIncentive 0 100000 61000 true blankPage).page.totalIncentive = 3000 := by
    rw [calculateIncentive_met _ _ (by norm_num)]
    simp only [updateUI]
    rw [nrvIncentive_of_tier, erIncentive_of_tier]
    norm_num [NRV_TARGET, ER_TARGET, NEW_CUSTOMER_BOOSTER_THRESHOLD, NEW_CUSTOMER_BOOSTER_RATE]
  have hb : (calculateIncentive 0 102000 61000 true blankPage).page.boosterIncentive = 0 ∧
      (calculateIncentive 0 102000 61000 true blankPage).page.totalIncentive = 0 := by
    rw [calculateIncentive_met _ _ (by norm_num)]
    simp only [updateUI]
    rw [nrvIncentive_of_tier, erIncentive_of_tier]
    norm_num [NRV_TARGET, ER_TARGET, NEW_CUSTOMER_BOOSTER_THRESHOLD, NEW_CUSTOMER_BOOSTER_RATE]
  refine ⟨by norm_num, by norm_num, by norm_num,
    (isSuccess_iff _ _ _ _ _).2 ⟨by norm_num, rfl⟩,
    (isSuccess_iff _ _ _ _ _).2 ⟨by norm_num, rfl⟩,
    ha.1, ha.2, hb.1, hb.2, ?_, ?_⟩
  · rw [ha.2, hb.2]
    norm_num
  · intro hall
    have h := hall 0 100000 102000 61000 blankPage (by norm_num) (by norm_num)
    rw [ha.2, hb.2] at h
    norm_num at h

end Calc
